import Mathlib

/-!
Verification development for the AI-MUSIC-DETECTOR server.

This file shallow-embeds the request handlers of src/unnamed/part_000
(the route file with the db-backed per-session quota), the standalone
pollForResults helper of src/server/routes.ts, and the uploads table of
src/db/schema.ts.  External collaborators (the OAuth token endpoint, the
object store, the detection API and the relational store) are modelled
as explicit data: each external call result is a field of an ExtWorld
value, the relational store is a list of records, and the unbounded
polling loop is indexed by fuel (a result of none means the loop has not
terminated within that many attempts).  Every handler also returns the
list of external calls it performed, so claims of the form "rejected
before any external call" become statements that the call trace is empty.
-/

namespace AiMusicDetector

/-- One row of the uploads table (src/db/schema.ts).  The serial id and
the defaultNow timestamp are omitted: no claim mentions them and the
application never reads them. -/
structure UploadRecord where
  sessionId : String
  ipAddress : String
  fileName : String
  fileId : String
  isAi : Option Bool
  confidenceScore : String
  deriving DecidableEq

/-- The relational store, as the append-only list of persisted rows. -/
abbrev Store := List UploadRecord

/-- MAX_UPLOADS_PER_SESSION in src/unnamed/part_000 line 21. -/
def MAX_UPLOADS_PER_SESSION : Nat := 5

/-- The multer fileSize limit in src/unnamed/part_000 line 41 (10MB). -/
def MAX_FILE_SIZE : Nat := 10 * 1024 * 1024

/-- POLLING_INTERVAL in src/server/routes.ts line 30, in milliseconds;
the loop of src/unnamed/part_000 line 179 uses the literal 5000. -/
def POLLING_INTERVAL : Nat := 5000

/-- The allowed MIME types of the multer fileFilter
(src/unnamed/part_000 line 44, src/server/routes.ts line 28). -/
def ALLOWED_AUDIO_TYPES : List String := ["audio/mpeg", "audio/wav", "audio/ogg"]

/-- The count query of src/unnamed/part_000 lines 60-65 and 94-100:
SELECT count(*) FROM uploads WHERE session_id = sessionId. -/
def countUploads (sessionId : String) (store : Store) : Nat :=
  (store.filter (fun r => decide (r.sessionId = sessionId))).length

/-- The uploadsRemaining expression of src/unnamed/part_000 lines 68-70
and 221-223: in production Math.max(0, MAX - count), otherwise null. -/
def uploadsRemainingFor (isProduction : Bool) (uploadCount : Nat) : Option Int :=
  if isProduction then
    some (max 0 ((MAX_UPLOADS_PER_SESSION : Int) - (uploadCount : Int)))
  else
    none

/-- A multipart file as multer presents it to the handler. -/
structure UploadedFile where
  originalname : String
  mimetype : String
  size : Nat
  deriving DecidableEq

/-- The request data the upload route reads: the optional file, the
session id and the client ip. -/
structure UploadRequest where
  file : Option UploadedFile
  sessionId : String
  ipAddress : String
  deriving DecidableEq

/-- One entry of the detection report resultList. -/
structure AnalysisResult where
  isAi : Bool
  confidence : Int
  deriving DecidableEq

/-- A poll response body: job_infos.job_status together with
job_infos.report_info.report.resultList. -/
structure PollResponse where
  job_status : String
  resultList : List AnalysisResult
  deriving DecidableEq

/-- An error thrown by an axios call: a message and the optional
response payload (error.response.data). -/
structure AxiosError where
  message : String
  responseData : Option String
  deriving DecidableEq

/-- A plain new Error(msg): no attached response payload. -/
def jsErr (msg : String) : AxiosError := ⟨msg, none⟩

/-- The message of the TypeError raised when resultList is empty, so
that result is undefined and result.isAi is read while building the
insert values (src/unnamed/part_000 lines 192 and 207). -/
def typeErrMsg : String := "TypeError: cannot read property isAi of undefined"

/-- The external calls the upload route can make, in pipeline order. -/
inductive ExtCall where
  | token
  | storageCreate
  | transfer
  | resolveUrl
  | detect
  | pollStatus
  deriving DecidableEq

/-- The behaviour of the external collaborators for one request: the
outcome of each pipeline call, and the stream of poll responses. -/
structure ExtWorld where
  auth : Except AxiosError String
  storageCreate : Except AxiosError String
  transfer : Except AxiosError Unit
  resolve : Except AxiosError String
  detect : Except AxiosError String
  polls : Nat → Except AxiosError PollResponse

/-- A JSON response body, one constructor per res.json shape in the
source. -/
inductive ResBody where
  | uploadSuccess (ISAI : Bool) (confidence : Int) (uploadsRemaining : Option Int)
  | errorBody (error : String) (details : Option String)
  | messageBody (message : String)
  | checkUploadBody (hasUploaded : Bool) (uploadsRemaining : Option Int)
  deriving DecidableEq

/-- An HTTP response: status code and JSON body. -/
structure HttpResponse where
  status : Nat
  body : ResBody
  deriving DecidableEq

/-- The catch handler of src/unnamed/part_000 lines 230-241: every
caught error becomes a 500 with the message and the optional upstream
payload. -/
def catchResponse (e : AxiosError) : HttpResponse :=
  ⟨500, .errorBody e.message e.responseData⟩

/-- The outcome of one POST /api/upload request: the external calls
made, the store afterwards, and the response (none when the polling
loop has not terminated within the given fuel). -/
structure HandlerOutcome where
  calls : List ExtCall
  store : Store
  response : Option HttpResponse
  deriving DecidableEq

/-- GET /api/check-upload of src/unnamed/part_000 lines 54-80. -/
def checkUpload (isProduction : Bool) (sessionId : String) (store : Store) :
    HttpResponse :=
  let uploadCount := countUploads sessionId store
  let uploadsRemaining := uploadsRemainingFor isProduction uploadCount
  let hasUploaded := isProduction && decide (MAX_UPLOADS_PER_SESSION ≤ uploadCount)
  ⟨200, .checkUploadBody hasUploaded uploadsRemaining⟩

/-- GET /api/check-upload of the trimmed iteration src/server/routes.ts
lines 69-71: a constant body with only the hasUploaded key; the model
reuses checkUploadBody with a null remaining for the missing key. -/
def checkUploadTrimmed : HttpResponse :=
  ⟨200, .checkUploadBody false none⟩

/-- The polling loop of src/unnamed/part_000 lines 175-198 together
with the success continuation of lines 200-229: at each attempt fetch
the job status; on success read resultList[0] (a TypeError if the list
is empty), insert the record, recount and respond; on error throw
Processing failed; otherwise loop.  fuel bounds how many attempts the
model unfolds; running out of fuel yields response none (the loop is
still running). -/
def afterDetect (isProduction : Bool) (sessionId ipAddress : String)
    (file : UploadedFile) (fileId : String)
    (polls : Nat → Except AxiosError PollResponse) (store : Store) :
    List ExtCall → Nat → Nat → HandlerOutcome
  | calls, _, 0 => ⟨calls, store, none⟩
  | calls, i, fuel + 1 =>
    match polls i with
    | .error e => ⟨calls ++ [.pollStatus], store, some (catchResponse e)⟩
    | .ok r =>
      if r.job_status = "success" then
        match r.resultList.head? with
        | none =>
          ⟨calls ++ [.pollStatus], store, some (catchResponse (jsErr typeErrMsg))⟩
        | some result =>
          let rec0 : UploadRecord :=
            ⟨sessionId, ipAddress, file.originalname, fileId,
              some result.isAi, toString result.confidence⟩
          let newStore := store ++ [rec0]
          let newCount := countUploads sessionId newStore
          ⟨calls ++ [.pollStatus], newStore,
            some ⟨200, .uploadSuccess result.isAi result.confidence
              (uploadsRemainingFor isProduction newCount)⟩⟩
      else if r.job_status = "error" then
        ⟨calls ++ [.pollStatus], store, some (catchResponse (jsErr "Processing failed"))⟩
      else
        afterDetect isProduction sessionId ipAddress file fileId polls store
          (calls ++ [.pollStatus]) (i + 1) fuel

/-- The body of the POST /api/upload handler of src/unnamed/part_000
lines 83-241: missing-file check, the production quota check, then the
external pipeline (token, storage provisioning, transfer, IAS URL,
detection submission), each failure caught as a 500. -/
def handleUpload (isProduction : Bool) (req : UploadRequest) (w : ExtWorld)
    (fuel : Nat) (store : Store) : HandlerOutcome :=
  match req.file with
  | none => ⟨[], store, some (catchResponse (jsErr "No file uploaded"))⟩
  | some file =>
    if isProduction = true ∧
        MAX_UPLOADS_PER_SESSION ≤ countUploads req.sessionId store then
      ⟨[], store,
        some (catchResponse (jsErr "Upload limit reached (5 files per session)"))⟩
    else
      match w.auth with
      | .error e => ⟨[.token], store, some (catchResponse e)⟩
      | .ok _idToken =>
        match w.storageCreate with
        | .error e => ⟨[.token, .storageCreate], store, some (catchResponse e)⟩
        | .ok fileId =>
          match w.transfer with
          | .error e =>
            ⟨[.token, .storageCreate, .transfer], store, some (catchResponse e)⟩
          | .ok _ =>
            match w.resolve with
            | .error e =>
              ⟨[.token, .storageCreate, .transfer, .resolveUrl], store,
                some (catchResponse e)⟩
            | .ok _iasUrl =>
              match w.detect with
              | .error e =>
                ⟨[.token, .storageCreate, .transfer, .resolveUrl, .detect], store,
                  some (catchResponse e)⟩
              | .ok _jobId =>
                afterDetect isProduction req.sessionId req.ipAddress file fileId
                  w.polls store
                  [.token, .storageCreate, .transfer, .resolveUrl, .detect] 0 fuel

/-- The full POST /api/upload route: the multer middleware first (the
fileFilter of src/unnamed/part_000 lines 43-50 and the fileSize limit
of line 41), whose rejections go to the error middleware of
src/server/index.ts lines 44-50 (status err.status or 500, body with a
single message key); then the handler. -/
def postUpload (isProduction : Bool) (req : UploadRequest) (w : ExtWorld)
    (fuel : Nat) (store : Store) : HandlerOutcome :=
  match req.file with
  | some file =>
    if file.mimetype ∈ ALLOWED_AUDIO_TYPES then
      if file.size ≤ MAX_FILE_SIZE then
        handleUpload isProduction req w fuel store
      else
        ⟨[], store, some ⟨500, .messageBody "File too large"⟩⟩
    else
      ⟨[], store,
        some ⟨500, .messageBody "Invalid file type. Only audio files are allowed."⟩⟩
  | none => handleUpload isProduction req w fuel store

/-- Outcome of the standalone pollForResults of src/server/routes.ts
lines 204-227: the first result of the list on success (none when the
list is empty, i.e. the undefined of resultList[0]), a processing
failure on job_status error, or a propagated axios error. -/
inductive PollResult where
  | found (r : Option AnalysisResult)
  | processingFailed
  | axiosFailure (e : AxiosError)
  deriving DecidableEq

/-- pollForResults of src/server/routes.ts lines 204-227, fuel-indexed:
none means the loop has not terminated within fuel attempts. -/
def pollForResults (polls : Nat → Except AxiosError PollResponse) :
    Nat → Nat → Option PollResult
  | _, 0 => none
  | i, fuel + 1 =>
    match polls i with
    | .error e => some (.axiosFailure e)
    | .ok r =>
      if r.job_status = "success" then some (.found r.resultList.head?)
      else if r.job_status = "error" then some .processingFailed
      else pollForResults polls (i + 1) fuel

/-- The poll response at index j is a well-formed non-terminal status
(neither success nor error), so the loop keeps going there. -/
def nonTerminalAt (polls : Nat → Except AxiosError PollResponse) (j : Nat) : Prop :=
  ∃ r, polls j = Except.ok r ∧ r.job_status ≠ "success" ∧ r.job_status ≠ "error"

/-- The operations the application can perform against the store: the
two API routes.  No other code path touches the uploads table. -/
inductive Op where
  | check (isProduction : Bool) (sessionId : String)
  | upload (isProduction : Bool) (req : UploadRequest) (w : ExtWorld) (fuel : Nat)

/-- The store after one operation: GET /api/check-upload only reads;
POST /api/upload yields its resulting store. -/
def applyOp (store : Store) : Op → Store
  | .check _ _ => store
  | .upload p req w fuel => (postUpload p req w fuel store).store

/-- The store after a sequence of operations. -/
def runOps (store : Store) : List Op → Store
  | [] => store
  | op :: ops => runOps (applyOp store op) ops

/-- True unless the response is an upload success carrying a non-null
uploadsRemaining. -/
def HttpResponse.successRemainingNone : HttpResponse → Bool
  | ⟨_, .uploadSuccess _ _ rem⟩ => rem.isNone
  | _ => true

/-- Whether a body has the error-plus-optional-details shape of the
catch handler. -/
def ResBody.isErrShape : ResBody → Bool
  | .errorBody _ _ => true
  | _ => false

/-! ### Concrete fixtures used to instantiate the theorems -/

/-- A valid WAV file. -/
def wavFile : UploadedFile := ⟨"track.wav", "audio/wav", 2048⟩

/-- A valid upload request carrying wavFile. -/
def wavReq : UploadRequest := ⟨some wavFile, "sess-a", "198.51.100.9"⟩

/-- A request carrying a text/plain file, outside the allowed set. -/
def txtReq : UploadRequest := ⟨some ⟨"notes.txt", "text/plain", 64⟩, "sess-a", "198.51.100.9"⟩

/-- A success poll response reporting one AI result with confidence 87. -/
def okSuccessPoll : PollResponse := ⟨"success", [⟨true, 87⟩]⟩

/-- A poll stream that always answers okSuccessPoll. -/
def pollsOk : Nat → Except AxiosError PollResponse := fun _ => .ok okSuccessPoll

/-- A world where every external call succeeds and the first poll
already reports okSuccessPoll. -/
def wAllOk : ExtWorld :=
  ⟨.ok "tok", .ok "fid-1", .ok (), .ok "ias-url", .ok "job-1", pollsOk⟩

/-- A world whose token request fails with an upstream 401 payload. -/
def wAuthFail : ExtWorld :=
  ⟨.error ⟨"Request failed with status code 401", some "unauthorized"⟩,
    .ok "fid-1", .ok (), .ok "ias-url", .ok "job-1", fun _ => .ok okSuccessPoll⟩

/-- A previously persisted record of session sess-a. -/
def oldRec : UploadRecord := ⟨"sess-a", "198.51.100.9", "old.wav", "fid-0", some false, "12"⟩

/-- A store holding 4 prior records of session sess-a. -/
def store4 : Store := List.replicate 4 oldRec

/-- A store holding 5 prior records of session sess-a. -/
def store5 : Store := List.replicate 5 oldRec

/-- A poll stream that reports processing once and then succeeds at
index 1. -/
def pollsLater : Nat → Except AxiosError PollResponse :=
  fun j => if j = 1 then .ok okSuccessPoll else .ok ⟨"processing", []⟩

/-- A poll stream whose success response carries an empty resultList. -/
def pollsEmptySuccess : Nat → Except AxiosError PollResponse :=
  fun _ => .ok ⟨"success", []⟩

/-! ### Step lemmas for the polling loop of the upload handler -/

section StepLemmas

variable (p : Bool) (sid ip : String) (file : UploadedFile) (fid : String)
variable (polls : Nat → Except AxiosError PollResponse) (store : Store)
variable (calls : List ExtCall) (i fuel : Nat)

lemma afterDetect_zero :
    afterDetect p sid ip file fid polls store calls i 0 = ⟨calls, store, none⟩ := rfl

lemma afterDetect_pollErr {e : AxiosError} (hr : polls i = .error e) :
    afterDetect p sid ip file fid polls store calls i (fuel + 1) =
      ⟨calls ++ [.pollStatus], store, some (catchResponse e)⟩ := by
  simp only [afterDetect, hr]

lemma afterDetect_success {r : PollResponse} {a : AnalysisResult}
    (hr : polls i = .ok r) (hs : r.job_status = "success")
    (hh : r.resultList.head? = some a) :
    afterDetect p sid ip file fid polls store calls i (fuel + 1) =
      ⟨calls ++ [.pollStatus],
        store ++ [⟨sid, ip, file.originalname, fid, some a.isAi, toString a.confidence⟩],
        some ⟨200, .uploadSuccess a.isAi a.confidence
          (uploadsRemainingFor p (countUploads sid
            (store ++ [⟨sid, ip, file.originalname, fid, some a.isAi,
              toString a.confidence⟩])))⟩⟩ := by
  simp only [afterDetect, hr, hs, if_pos, hh]

lemma afterDetect_success_empty {r : PollResponse}
    (hr : polls i = .ok r) (hs : r.job_status = "success")
    (hh : r.resultList.head? = none) :
    afterDetect p sid ip file fid polls store calls i (fuel + 1) =
      ⟨calls ++ [.pollStatus], store, some (catchResponse (jsErr typeErrMsg))⟩ := by
  simp only [afterDetect, hr, hs, if_pos, hh]

lemma afterDetect_statusErr {r : PollResponse}
    (hr : polls i = .ok r) (h1 : r.job_status ≠ "success")
    (h2 : r.job_status = "error") :
    afterDetect p sid ip file fid polls store calls i (fuel + 1) =
      ⟨calls ++ [.pollStatus], store,
        some (catchResponse (jsErr "Processing failed"))⟩ := by
  simp only [afterDetect, hr]
  rw [if_neg h1, if_pos h2]

lemma afterDetect_nonterminal {r : PollResponse}
    (hr : polls i = .ok r) (h1 : r.job_status ≠ "success")
    (h2 : r.job_status ≠ "error") :
    afterDetect p sid ip file fid polls store calls i (fuel + 1) =
      afterDetect p sid ip file fid polls store (calls ++ [.pollStatus]) (i + 1) fuel := by
  simp only [afterDetect, hr]
  rw [if_neg h1, if_neg h2]

lemma pollForResults_zero : pollForResults polls i 0 = none := rfl

lemma pollForResults_pollErr {e : AxiosError} (hr : polls i = .error e) :
    pollForResults polls i (fuel + 1) = some (.axiosFailure e) := by
  simp only [pollForResults, hr]

lemma pollForResults_success {r : PollResponse}
    (hr : polls i = .ok r) (hs : r.job_status = "success") :
    pollForResults polls i (fuel + 1) = some (.found r.resultList.head?) := by
  simp only [pollForResults, hr, hs, if_pos]

lemma pollForResults_statusErr {r : PollResponse}
    (hr : polls i = .ok r) (h1 : r.job_status ≠ "success")
    (h2 : r.job_status = "error") :
    pollForResults polls i (fuel + 1) = some .processingFailed := by
  simp only [pollForResults, hr]
  rw [if_neg h1, if_pos h2]

lemma pollForResults_nonterminal {r : PollResponse}
    (hr : polls i = .ok r) (h1 : r.job_status ≠ "success")
    (h2 : r.job_status ≠ "error") :
    pollForResults polls i (fuel + 1) = pollForResults polls (i + 1) fuel := by
  simp only [pollForResults, hr]
  rw [if_neg h1, if_neg h2]

end StepLemmas

/-! ### Skip and characterization lemmas -/

/-- Running the standalone loop over a block of non-terminal responses
just advances the attempt index. -/
lemma pollForResults_skip (polls : Nat → Except AxiosError PollResponse) (b : Nat) :
    ∀ (a fuel : Nat), (∀ j, a ≤ j → j < a + b → nonTerminalAt polls j) →
      pollForResults polls a (b + fuel) = pollForResults polls (a + b) fuel := by
  induction b with
  | zero => intro a fuel _; simp
  | succ b ih =>
    intro a fuel h
    obtain ⟨r, hr, h1, h2⟩ := h a (Nat.le_refl a) (by omega)
    have hstep : b + 1 + fuel = (b + fuel) + 1 := by omega
    rw [hstep, pollForResults_nonterminal polls a (b + fuel) hr h1 h2,
      ih (a + 1) fuel (fun j hj1 hj2 => h j (by omega) (by omega))]
    have : a + 1 + b = a + (b + 1) := by omega
    rw [this]

/-- A stream with no terminal response never lets the loop return,
whatever the fuel. -/
lemma pollForResults_none (polls : Nat → Except AxiosError PollResponse)
    (h : ∀ j, nonTerminalAt polls j) (fuel : Nat) :
    ∀ a, pollForResults polls a fuel = none := by
  induction fuel with
  | zero => intro a; rfl
  | succ fuel ih =>
    intro a
    obtain ⟨r, hr, h1, h2⟩ := h a
    rw [pollForResults_nonterminal polls a fuel hr h1 h2, ih (a + 1)]

/-- The handler polling loop over a block of non-terminal responses
advances the index and records one poll call per attempt. -/
lemma afterDetect_skip (p : Bool) (sid ip : String) (file : UploadedFile)
    (fid : String) (polls : Nat → Except AxiosError PollResponse) (store : Store)
    (b : Nat) :
    ∀ (a : Nat) (calls : List ExtCall) (fuel : Nat),
      (∀ j, a ≤ j → j < a + b → nonTerminalAt polls j) →
      afterDetect p sid ip file fid polls store calls a (b + fuel) =
        afterDetect p sid ip file fid polls store
          (calls ++ List.replicate b ExtCall.pollStatus) (a + b) fuel := by
  induction b with
  | zero => intro a calls fuel _; simp
  | succ b ih =>
    intro a calls fuel h
    obtain ⟨r, hr, h1, h2⟩ := h a (Nat.le_refl a) (by omega)
    have hstep : b + 1 + fuel = (b + fuel) + 1 := by omega
    rw [hstep, afterDetect_nonterminal p sid ip file fid polls store calls a (b + fuel)
        hr h1 h2,
      ih (a + 1) (calls ++ [ExtCall.pollStatus]) fuel
        (fun j hj1 hj2 => h j (by omega) (by omega))]
    have hi : a + 1 + b = a + (b + 1) := by omega
    have hl : (calls ++ [ExtCall.pollStatus]) ++ List.replicate b ExtCall.pollStatus =
        calls ++ List.replicate (b + 1) ExtCall.pollStatus := by
      simp [List.replicate_succ]
    rw [hi, hl]

/-- Appending one record changes the count of its own session by one
and of any other session not at all. -/
lemma countUploads_append (sid : String) (store : Store) (r : UploadRecord) :
    countUploads sid (store ++ [r]) =
      countUploads sid store + (if r.sessionId = sid then 1 else 0) := by
  by_cases h : r.sessionId = sid <;>
    simp [countUploads, List.filter_append, List.filter_cons, h]

/-- The handler polling loop either leaves the store alone or appends
exactly one record while answering with a 200 upload success. -/
lemma afterDetect_store_cases (p : Bool) (sid ip : String) (file : UploadedFile)
    (fid : String) (polls : Nat → Except AxiosError PollResponse) (store : Store)
    (fuel : Nat) :
    ∀ (calls : List ExtCall) (i : Nat),
      (afterDetect p sid ip file fid polls store calls i fuel).store = store ∨
      ∃ rec0 b c rem,
        (afterDetect p sid ip file fid polls store calls i fuel).store =
          store ++ [rec0] ∧
        (afterDetect p sid ip file fid polls store calls i fuel).response =
          some ⟨200, .uploadSuccess b c rem⟩ := by
  induction fuel with
  | zero => intro calls i; left; rfl
  | succ fuel ih =>
    intro calls i
    cases hr : polls i with
    | error e =>
      left
      rw [afterDetect_pollErr p sid ip file fid polls store calls i fuel hr]
    | ok r =>
      by_cases hs : r.job_status = "success"
      · cases hh : r.resultList.head? with
        | none =>
          left
          rw [afterDetect_success_empty p sid ip file fid polls store calls i fuel
            hr hs hh]
        | some a =>
          right
          rw [afterDetect_success p sid ip file fid polls store calls i fuel hr hs hh]
          exact ⟨_, _, _, _, rfl, rfl⟩
      · by_cases he : r.job_status = "error"
        · left
          rw [afterDetect_statusErr p sid ip file fid polls store calls i fuel hr hs he]
        · rw [afterDetect_nonterminal p sid ip file fid polls store calls i fuel hr hs he]
          exact ih (calls ++ [ExtCall.pollStatus]) (i + 1)

/-- Every terminated response of the handler polling loop is either a
500 with the catch-handler body shape or a 200 upload success. -/
lemma afterDetect_response_shape (p : Bool) (sid ip : String) (file : UploadedFile)
    (fid : String) (polls : Nat → Except AxiosError PollResponse) (store : Store)
    (fuel : Nat) :
    ∀ (calls : List ExtCall) (i : Nat) (r : HttpResponse),
      (afterDetect p sid ip file fid polls store calls i fuel).response = some r →
      (r.status = 500 ∧ ∃ e d, r.body = .errorBody e d) ∨
      (r.status = 200 ∧ ∃ b c rem, r.body = .uploadSuccess b c rem) := by
  induction fuel with
  | zero => intro calls i r h; exact absurd h (by simp [afterDetect_zero])
  | succ fuel ih =>
    intro calls i r h
    cases hr : polls i with
    | error e =>
      rw [afterDetect_pollErr p sid ip file fid polls store calls i fuel hr] at h
      obtain rfl : catchResponse e = r := by simpa using h
      exact Or.inl ⟨rfl, _, _, rfl⟩
    | ok q =>
      by_cases hs : q.job_status = "success"
      · cases hh : q.resultList.head? with
        | none =>
          rw [afterDetect_success_empty p sid ip file fid polls store calls i fuel
            hr hs hh] at h
          obtain rfl : catchResponse (jsErr typeErrMsg) = r := by simpa using h
          exact Or.inl ⟨rfl, _, _, rfl⟩
        | some a =>
          rw [afterDetect_success p sid ip file fid polls store calls i fuel
            hr hs hh] at h
          obtain rfl :
              (⟨200, .uploadSuccess a.isAi a.confidence
                (uploadsRemainingFor p (countUploads sid
                  (store ++ [⟨sid, ip, file.originalname, fid, some a.isAi,
                    toString a.confidence⟩])))⟩ : HttpResponse) = r := by simpa using h
          exact Or.inr ⟨rfl, _, _, _, rfl⟩
      · by_cases he : q.job_status = "error"
        · rw [afterDetect_statusErr p sid ip file fid polls store calls i fuel
            hr hs he] at h
          obtain rfl : catchResponse (jsErr "Processing failed") = r := by simpa using h
          exact Or.inl ⟨rfl, _, _, rfl⟩
        · rw [afterDetect_nonterminal p sid ip file fid polls store calls i fuel
            hr hs he] at h
          exact ih (calls ++ [ExtCall.pollStatus]) (i + 1) r h

section RouteStepLemmas

variable {p : Bool} {req : UploadRequest} {w : ExtWorld} {fuel : Nat} {store : Store}
variable {file : UploadedFile} {e : AxiosError}

lemma handleUpload_noFile (hf : req.file = none) :
    handleUpload p req w fuel store =
      ⟨[], store, some (catchResponse (jsErr "No file uploaded"))⟩ := by
  simp only [handleUpload, hf]

lemma handleUpload_quota (hf : req.file = some file)
    (hq : p = true ∧ MAX_UPLOADS_PER_SESSION ≤ countUploads req.sessionId store) :
    handleUpload p req w fuel store =
      ⟨[], store,
        some (catchResponse (jsErr "Upload limit reached (5 files per session)"))⟩ := by
  simp only [handleUpload, hf]
  rw [if_pos hq]

lemma handleUpload_authErr (hf : req.file = some file)
    (hq : ¬(p = true ∧ MAX_UPLOADS_PER_SESSION ≤ countUploads req.sessionId store))
    (ha : w.auth = .error e) :
    handleUpload p req w fuel store = ⟨[.token], store, some (catchResponse e)⟩ := by
  simp only [handleUpload, hf, ha]
  rw [if_neg hq]

lemma handleUpload_storageErr (hf : req.file = some file)
    (hq : ¬(p = true ∧ MAX_UPLOADS_PER_SESSION ≤ countUploads req.sessionId store))
    {tok : String} (ha : w.auth = .ok tok) (hb : w.storageCreate = .error e) :
    handleUpload p req w fuel store =
      ⟨[.token, .storageCreate], store, some (catchResponse e)⟩ := by
  simp only [handleUpload, hf, ha, hb]
  rw [if_neg hq]

lemma handleUpload_transferErr (hf : req.file = some file)
    (hq : ¬(p = true ∧ MAX_UPLOADS_PER_SESSION ≤ countUploads req.sessionId store))
    {tok fid : String} (ha : w.auth = .ok tok) (hb : w.storageCreate = .ok fid)
    (hc : w.transfer = .error e) :
    handleUpload p req w fuel store =
      ⟨[.token, .storageCreate, .transfer], store, some (catchResponse e)⟩ := by
  simp only [handleUpload, hf, ha, hb, hc]
  rw [if_neg hq]

lemma handleUpload_resolveErr (hf : req.file = some file)
    (hq : ¬(p = true ∧ MAX_UPLOADS_PER_SESSION ≤ countUploads req.sessionId store))
    {tok fid : String} {u : Unit} (ha : w.auth = .ok tok)
    (hb : w.storageCreate = .ok fid)
    (hc : w.transfer = .ok u) (hd : w.resolve = .error e) :
    handleUpload p req w fuel store =
      ⟨[.token, .storageCreate, .transfer, .resolveUrl], store,
        some (catchResponse e)⟩ := by
  simp only [handleUpload, hf, ha, hb, hc, hd]
  rw [if_neg hq]

lemma handleUpload_detectErr (hf : req.file = some file)
    (hq : ¬(p = true ∧ MAX_UPLOADS_PER_SESSION ≤ countUploads req.sessionId store))
    {tok fid ias : String} {u : Unit} (ha : w.auth = .ok tok)
    (hb : w.storageCreate = .ok fid)
    (hc : w.transfer = .ok u) (hd : w.resolve = .ok ias)
    (he : w.detect = .error e) :
    handleUpload p req w fuel store =
      ⟨[.token, .storageCreate, .transfer, .resolveUrl, .detect], store,
        some (catchResponse e)⟩ := by
  simp only [handleUpload, hf, ha, hb, hc, hd, he]
  rw [if_neg hq]

lemma handleUpload_pipeline (hf : req.file = some file)
    (hq : ¬(p = true ∧ MAX_UPLOADS_PER_SESSION ≤ countUploads req.sessionId store))
    {tok fid ias job : String} {u : Unit} (ha : w.auth = .ok tok)
    (hb : w.storageCreate = .ok fid)
    (hc : w.transfer = .ok u) (hd : w.resolve = .ok ias) (he : w.detect = .ok job) :
    handleUpload p req w fuel store =
      afterDetect p req.sessionId req.ipAddress file fid w.polls store
        [.token, .storageCreate, .transfer, .resolveUrl, .detect] 0 fuel := by
  simp only [handleUpload, hf, ha, hb, hc, hd, he]
  rw [if_neg hq]

lemma postUpload_noFile (hf : req.file = none) :
    postUpload p req w fuel store = handleUpload p req w fuel store := by
  simp only [postUpload, hf, handleUpload]

lemma postUpload_badMime (hf : req.file = some file)
    (hm : file.mimetype ∉ ALLOWED_AUDIO_TYPES) :
    postUpload p req w fuel store =
      ⟨[], store,
        some ⟨500, .messageBody "Invalid file type. Only audio files are allowed."⟩⟩ := by
  simp only [postUpload, hf]
  rw [if_neg hm]

lemma postUpload_tooLarge (hf : req.file = some file)
    (hm : file.mimetype ∈ ALLOWED_AUDIO_TYPES) (hs : ¬file.size ≤ MAX_FILE_SIZE) :
    postUpload p req w fuel store =
      ⟨[], store, some ⟨500, .messageBody "File too large"⟩⟩ := by
  simp only [postUpload, hf]
  rw [if_pos hm, if_neg hs]

lemma postUpload_pass (hf : req.file = some file)
    (hm : file.mimetype ∈ ALLOWED_AUDIO_TYPES) (hs : file.size ≤ MAX_FILE_SIZE) :
    postUpload p req w fuel store = handleUpload p req w fuel store := by
  simp only [postUpload, hf]
  rw [if_pos hm, if_pos hs]

end RouteStepLemmas

/-- The upload route either leaves the store alone or appends exactly
one record while answering with a 200 upload success. -/
lemma postUpload_store_cases (p : Bool) (req : UploadRequest) (w : ExtWorld)
    (fuel : Nat) (store : Store) :
    (postUpload p req w fuel store).store = store ∨
    ∃ rec0 b c rem,
      (postUpload p req w fuel store).store = store ++ [rec0] ∧
      (postUpload p req w fuel store).response = some ⟨200, .uploadSuccess b c rem⟩ := by
  have hmain : (handleUpload p req w fuel store).store = store ∨
      ∃ rec0 b c rem,
        (handleUpload p req w fuel store).store = store ++ [rec0] ∧
        (handleUpload p req w fuel store).response =
          some ⟨200, .uploadSuccess b c rem⟩ := by
    cases hf : req.file with
    | none => left; rw [handleUpload_noFile hf]
    | some file =>
      by_cases hq : p = true ∧
          MAX_UPLOADS_PER_SESSION ≤ countUploads req.sessionId store
      · left; rw [handleUpload_quota hf hq]
      · cases ha : w.auth with
        | error e => left; rw [handleUpload_authErr hf hq ha]
        | ok tok =>
          cases hb : w.storageCreate with
          | error e => left; rw [handleUpload_storageErr hf hq ha hb]
          | ok fileId =>
            cases hc : w.transfer with
            | error e => left; rw [handleUpload_transferErr hf hq ha hb hc]
            | ok u =>
              cases hd : w.resolve with
              | error e => left; rw [handleUpload_resolveErr hf hq ha hb hc hd]
              | ok ias =>
                cases he : w.detect with
                | error e => left; rw [handleUpload_detectErr hf hq ha hb hc hd he]
                | ok job =>
                  rw [handleUpload_pipeline hf hq ha hb hc hd he]
                  exact afterDetect_store_cases p req.sessionId req.ipAddress file
                    fileId w.polls store fuel _ 0
  cases hf : req.file with
  | none => rw [postUpload_noFile hf]; exact hmain
  | some file =>
    by_cases hm : file.mimetype ∈ ALLOWED_AUDIO_TYPES
    · by_cases hs : file.size ≤ MAX_FILE_SIZE
      · rw [postUpload_pass hf hm hs]; exact hmain
      · left; rw [postUpload_tooLarge hf hm hs]
    · left; rw [postUpload_badMime hf hm]

/-- Every terminated response of the upload route is a 500 whose body
is either the error middleware message shape (multer rejections) or the
catch-handler error shape, or a 200 upload success. -/
lemma postUpload_response_shape (p : Bool) (req : UploadRequest) (w : ExtWorld)
    (fuel : Nat) (store : Store) (r : HttpResponse)
    (h : (postUpload p req w fuel store).response = some r) :
    (r.status = 500 ∧
      ((∃ m, r.body = .messageBody m) ∨ ∃ e d, r.body = .errorBody e d)) ∨
    (r.status = 200 ∧ ∃ b c rem, r.body = .uploadSuccess b c rem) := by
  have hmain : ∀ (h2 : (handleUpload p req w fuel store).response = some r),
      (r.status = 500 ∧
        ((∃ m, r.body = .messageBody m) ∨ ∃ e d, r.body = .errorBody e d)) ∨
      (r.status = 200 ∧ ∃ b c rem, r.body = .uploadSuccess b c rem) := by
    intro h2
    cases hf : req.file with
    | none =>
      rw [handleUpload_noFile hf] at h2
      obtain rfl : catchResponse (jsErr "No file uploaded") = r := by simpa using h2
      exact Or.inl ⟨rfl, Or.inr ⟨_, _, rfl⟩⟩
    | some file =>
      by_cases hq : p = true ∧
          MAX_UPLOADS_PER_SESSION ≤ countUploads req.sessionId store
      · rw [handleUpload_quota hf hq] at h2
        obtain rfl :
            catchResponse (jsErr "Upload limit reached (5 files per session)") = r := by
          simpa using h2
        exact Or.inl ⟨rfl, Or.inr ⟨_, _, rfl⟩⟩
      · cases ha : w.auth with
        | error e =>
          rw [handleUpload_authErr hf hq ha] at h2
          obtain rfl : catchResponse e = r := by simpa using h2
          exact Or.inl ⟨rfl, Or.inr ⟨_, _, rfl⟩⟩
        | ok tok =>
          cases hb : w.storageCreate with
          | error e =>
            rw [handleUpload_storageErr hf hq ha hb] at h2
            obtain rfl : catchResponse e = r := by simpa using h2
            exact Or.inl ⟨rfl, Or.inr ⟨_, _, rfl⟩⟩
          | ok fileId =>
            cases hc : w.transfer with
            | error e =>
              rw [handleUpload_transferErr hf hq ha hb hc] at h2
              obtain rfl : catchResponse e = r := by simpa using h2
              exact Or.inl ⟨rfl, Or.inr ⟨_, _, rfl⟩⟩
            | ok u =>
              cases hd : w.resolve with
              | error e =>
                rw [handleUpload_resolveErr hf hq ha hb hc hd] at h2
                obtain rfl : catchResponse e = r := by simpa using h2
                exact Or.inl ⟨rfl, Or.inr ⟨_, _, rfl⟩⟩
              | ok ias =>
                cases he : w.detect with
                | error e =>
                  rw [handleUpload_detectErr hf hq ha hb hc hd he] at h2
                  obtain rfl : catchResponse e = r := by simpa using h2
                  exact Or.inl ⟨rfl, Or.inr ⟨_, _, rfl⟩⟩
                | ok job =>
                  rw [handleUpload_pipeline hf hq ha hb hc hd he] at h2
                  rcases afterDetect_response_shape p req.sessionId req.ipAddress file
                      fileId w.polls store fuel _ 0 r h2 with h3 | h3
                  · exact Or.inl ⟨h3.1, Or.inr h3.2⟩
                  · exact Or.inr h3
  cases hf : req.file with
  | none => rw [postUpload_noFile hf] at h; exact hmain h
  | some file =>
    by_cases hm : file.mimetype ∈ ALLOWED_AUDIO_TYPES
    · by_cases hs : file.size ≤ MAX_FILE_SIZE
      · rw [postUpload_pass hf hm hs] at h; exact hmain h
      · rw [postUpload_tooLarge hf hm hs] at h
        obtain rfl : (⟨500, .messageBody "File too large"⟩ : HttpResponse) = r := by
          simpa using h
        exact Or.inl ⟨rfl, Or.inl ⟨_, rfl⟩⟩
    · rw [postUpload_badMime hf hm] at h
      obtain rfl :
          (⟨500, .messageBody "Invalid file type. Only audio files are allowed."⟩ :
            HttpResponse) = r := by simpa using h
      exact Or.inl ⟨rfl, Or.inl ⟨_, rfl⟩⟩

/-- Outside production the polling loop's response does not depend on
the prior contents of the store: nothing reads it and the remaining
quota reported on success is null either way. -/
lemma afterDetect_response_store_irrel (sid ip : String) (file : UploadedFile)
    (fid : String) (polls : Nat → Except AxiosError PollResponse) (fuel : Nat) :
    ∀ (store store2 : Store) (calls : List ExtCall) (i : Nat),
      (afterDetect false sid ip file fid polls store calls i fuel).response =
        (afterDetect false sid ip file fid polls store2 calls i fuel).response := by
  induction fuel with
  | zero => intro store store2 calls i; rfl
  | succ fuel ih =>
    intro store store2 calls i
    cases hr : polls i with
    | error e =>
      rw [afterDetect_pollErr false sid ip file fid polls store calls i fuel hr,
        afterDetect_pollErr false sid ip file fid polls store2 calls i fuel hr]
    | ok q =>
      by_cases hs : q.job_status = "success"
      · cases hh : q.resultList.head? with
        | none =>
          rw [afterDetect_success_empty false sid ip file fid polls store calls i fuel
              hr hs hh,
            afterDetect_success_empty false sid ip file fid polls store2 calls i fuel
              hr hs hh]
        | some a =>
          rw [afterDetect_success false sid ip file fid polls store calls i fuel
              hr hs hh,
            afterDetect_success false sid ip file fid polls store2 calls i fuel
              hr hs hh]
          simp [uploadsRemainingFor]
      · by_cases he : q.job_status = "error"
        · rw [afterDetect_statusErr false sid ip file fid polls store calls i fuel
              hr hs he,
            afterDetect_statusErr false sid ip file fid polls store2 calls i fuel
              hr hs he]
        · rw [afterDetect_nonterminal false sid ip file fid polls store calls i fuel
              hr hs he,
            afterDetect_nonterminal false sid ip file fid polls store2 calls i fuel
              hr hs he]
          exact ih store store2 (calls ++ [ExtCall.pollStatus]) (i + 1)

/-- Outside production every success response of the polling loop
carries a null uploadsRemaining. -/
lemma afterDetect_remaining_none (sid ip : String) (file : UploadedFile)
    (fid : String) (polls : Nat → Except AxiosError PollResponse) (fuel : Nat) :
    ∀ (store : Store) (calls : List ExtCall) (i : Nat),
      Option.all HttpResponse.successRemainingNone
        (afterDetect false sid ip file fid polls store calls i fuel).response = true := by
  induction fuel with
  | zero => intro store calls i; rfl
  | succ fuel ih =>
    intro store calls i
    cases hr : polls i with
    | error e =>
      rw [afterDetect_pollErr false sid ip file fid polls store calls i fuel hr]
      rfl
    | ok q =>
      by_cases hs : q.job_status = "success"
      · cases hh : q.resultList.head? with
        | none =>
          rw [afterDetect_success_empty false sid ip file fid polls store calls i fuel
            hr hs hh]
          rfl
        | some a =>
          rw [afterDetect_success false sid ip file fid polls store calls i fuel
            hr hs hh]
          simp [uploadsRemainingFor, HttpResponse.successRemainingNone]
      · by_cases he : q.job_status = "error"
        · rw [afterDetect_statusErr false sid ip file fid polls store calls i fuel
            hr hs he]
          rfl
        · rw [afterDetect_nonterminal false sid ip file fid polls store calls i fuel
            hr hs he]
          exact ih store (calls ++ [ExtCall.pollStatus]) (i + 1)

/-- When every success poll response carries at least one result, every
found outcome of the standalone loop holds an actual first result. -/
lemma pollForResults_found_isSome (polls : Nat → Except AxiosError PollResponse)
    (hpre : ∀ i q, polls i = .ok q → q.job_status = "success" → q.resultList ≠ [])
    (fuel : Nat) :
    ∀ (i : Nat) (res : Option AnalysisResult),
      pollForResults polls i fuel = some (.found res) → res.isSome = true := by
  induction fuel with
  | zero => intro i res h; exact absurd h (by simp [pollForResults_zero])
  | succ fuel ih =>
    intro i res h
    cases hr : polls i with
    | error e =>
      rw [pollForResults_pollErr polls i fuel hr] at h
      simp at h
    | ok q =>
      by_cases hs : q.job_status = "success"
      · rw [pollForResults_success polls i fuel hr hs] at h
        obtain rfl : q.resultList.head? = res := by simpa using h
        have : q.resultList ≠ [] := hpre i q hr hs
        cases hl : q.resultList with
        | nil => exact absurd hl this
        | cons a l => simp [hl]
      · by_cases he : q.job_status = "error"
        · rw [pollForResults_statusErr polls i fuel hr hs he] at h
          simp at h
        · rw [pollForResults_nonterminal polls i fuel hr hs he] at h
          exact ih (i + 1) res h

/-- When every success poll response carries at least one result and no
upstream poll error masquerades as the TypeError message, the
empty-resultList TypeError branch of the handler loop is unreachable. -/
lemma afterDetect_no_typeErr (p : Bool) (sid ip : String) (file : UploadedFile)
    (fid : String) (polls : Nat → Except AxiosError PollResponse)
    (hpre : ∀ i q, polls i = .ok q → q.job_status = "success" → q.resultList ≠ [])
    (hax : ∀ i e, polls i = .error e → e.message ≠ typeErrMsg)
    (fuel : Nat) :
    ∀ (store : Store) (calls : List ExtCall) (i : Nat),
      (afterDetect p sid ip file fid polls store calls i fuel).response ≠
        some ⟨500, .errorBody typeErrMsg none⟩ := by
  induction fuel with
  | zero => intro store calls i; simp [afterDetect_zero]
  | succ fuel ih =>
    intro store calls i
    cases hr : polls i with
    | error e =>
      rw [afterDetect_pollErr p sid ip file fid polls store calls i fuel hr]
      intro hcontra
      have : e.message = typeErrMsg ∧ e.responseData = none := by
        simpa [catchResponse] using congrArg HttpResponse.body
          (Option.some.inj hcontra)
      exact hax i e hr this.1
    | ok q =>
      by_cases hs : q.job_status = "success"
      · cases hh : q.resultList.head? with
        | none =>
          exfalso
          have : q.resultList ≠ [] := hpre i q hr hs
          cases hl : q.resultList with
          | nil => exact this hl
          | cons a l => rw [hl] at hh; simp at hh
        | some a =>
          rw [afterDetect_success p sid ip file fid polls store calls i fuel hr hs hh]
          simp
      · by_cases he : q.job_status = "error"
        · rw [afterDetect_statusErr p sid ip file fid polls store calls i fuel hr hs he]
          simp [catchResponse, jsErr, typeErrMsg]
        · rw [afterDetect_nonterminal p sid ip file fid polls store calls i fuel hr hs he]
          exact ih store (calls ++ [ExtCall.pollStatus]) (i + 1)

/-- Outside production the upload route never reports a numeric
remaining quota on success. -/
lemma postUpload_nonprod_remaining_none (req : UploadRequest) (w : ExtWorld)
    (fuel : Nat) (store : Store) :
    Option.all HttpResponse.successRemainingNone
      (postUpload false req w fuel store).response = true := by
  have hq : ¬(false = true ∧
      MAX_UPLOADS_PER_SESSION ≤ countUploads req.sessionId store) := by simp
  have hmain : Option.all HttpResponse.successRemainingNone
      (handleUpload false req w fuel store).response = true := by
    cases hf : req.file with
    | none => rw [handleUpload_noFile hf]; rfl
    | some file =>
      cases ha : w.auth with
      | error e => rw [handleUpload_authErr hf hq ha]; rfl
      | ok tok =>
        cases hb : w.storageCreate with
        | error e => rw [handleUpload_storageErr hf hq ha hb]; rfl
        | ok fid =>
          cases hc : w.transfer with
          | error e => rw [handleUpload_transferErr hf hq ha hb hc]; rfl
          | ok u =>
            cases hd : w.resolve with
            | error e => rw [handleUpload_resolveErr hf hq ha hb hc hd]; rfl
            | ok ias =>
              cases he : w.detect with
              | error e => rw [handleUpload_detectErr hf hq ha hb hc hd he]; rfl
              | ok job =>
                rw [handleUpload_pipeline hf hq ha hb hc hd he]
                exact afterDetect_remaining_none req.sessionId req.ipAddress file fid
                  w.polls fuel store _ 0
  cases hf : req.file with
  | none => rw [postUpload_noFile hf]; exact hmain
  | some file =>
    by_cases hm : file.mimetype ∈ ALLOWED_AUDIO_TYPES
    · by_cases hs : file.size ≤ MAX_FILE_SIZE
      · rw [postUpload_pass hf hm hs]; exact hmain
      · rw [postUpload_tooLarge hf hm hs]; rfl
    · rw [postUpload_badMime hf hm]; rfl

/-- Outside production the response of the upload route does not depend
on how many records the session already has: nothing consults the
store, so the quota can never block an upload. -/
lemma postUpload_nonprod_response_irrel (req : UploadRequest) (w : ExtWorld)
    (fuel : Nat) (store store2 : Store) :
    (postUpload false req w fuel store).response =
      (postUpload false req w fuel store2).response := by
  have hq1 : ¬(false = true ∧
      MAX_UPLOADS_PER_SESSION ≤ countUploads req.sessionId store) := by simp
  have hq2 : ¬(false = true ∧
      MAX_UPLOADS_PER_SESSION ≤ countUploads req.sessionId store2) := by simp
  have hmain : (handleUpload false req w fuel store).response =
      (handleUpload false req w fuel store2).response := by
    cases hf : req.file with
    | none => rw [handleUpload_noFile hf, handleUpload_noFile hf]
    | some file =>
      cases ha : w.auth with
      | error e => rw [handleUpload_authErr hf hq1 ha, handleUpload_authErr hf hq2 ha]
      | ok tok =>
        cases hb : w.storageCreate with
        | error e =>
          rw [handleUpload_storageErr hf hq1 ha hb, handleUpload_storageErr hf hq2 ha hb]
        | ok fid =>
          cases hc : w.transfer with
          | error e =>
            rw [handleUpload_transferErr hf hq1 ha hb hc,
              handleUpload_transferErr hf hq2 ha hb hc]
          | ok u =>
            cases hd : w.resolve with
            | error e =>
              rw [handleUpload_resolveErr hf hq1 ha hb hc hd,
                handleUpload_resolveErr hf hq2 ha hb hc hd]
            | ok ias =>
              cases he : w.detect with
              | error e =>
                rw [handleUpload_detectErr hf hq1 ha hb hc hd he,
                  handleUpload_detectErr hf hq2 ha hb hc hd he]
              | ok job =>
                rw [handleUpload_pipeline hf hq1 ha hb hc hd he,
                  handleUpload_pipeline hf hq2 ha hb hc hd he]
                exact afterDetect_response_store_irrel req.sessionId req.ipAddress file
                  fid w.polls fuel store store2 _ 0
  cases hf : req.file with
  | none => rw [postUpload_noFile hf, postUpload_noFile hf]; exact hmain
  | some file =>
    by_cases hm : file.mimetype ∈ ALLOWED_AUDIO_TYPES
    · by_cases hs : file.size ≤ MAX_FILE_SIZE
      · rw [postUpload_pass hf hm hs, postUpload_pass hf hm hs]; exact hmain
      · rw [postUpload_tooLarge hf hm hs, postUpload_tooLarge hf hm hs]
    · rw [postUpload_badMime hf hm, postUpload_badMime hf hm]

/-- The store only ever grows: after any sequence of API operations the
original records are still there, in order, at the front. -/
lemma runOps_extends : ∀ (ops : List Op) (store : Store),
    ∃ tail, runOps store ops = store ++ tail := by
  intro ops
  induction ops with
  | nil => intro store; exact ⟨[], by simp [runOps]⟩
  | cons op ops ih =>
    intro store
    show ∃ tail, runOps (applyOp store op) ops = store ++ tail
    cases op with
    | check p sid => simpa [applyOp] using ih store
    | upload p req w fuel =>
      rcases postUpload_store_cases p req w fuel store with h | ⟨rec0, b, c, rem, h, _⟩
      · obtain ⟨t, ht⟩ := ih store
        refine ⟨t, ?_⟩
        simpa [applyOp, h] using ht
      · obtain ⟨t, ht⟩ := ih (store ++ [rec0])
        refine ⟨[rec0] ++ t, ?_⟩
        rw [show applyOp store (Op.upload p req w fuel) =
            (postUpload p req w fuel store).store from rfl, h, ht, List.append_assoc]

/-! ### The claims -/

/-- Claim C1: in production mode the quota computation yields
remaining = max(0, 5 - c) for recorded count c, and once c has reached
5 a POST /api/upload request for that session is answered with the
quota error, with the store untouched and an empty external call trace
(no token request, storage provisioning, transfer or detection
submission). -/
theorem c1_production_quota (sid : String) (store : Store) (req : UploadRequest)
    (w : ExtWorld) (fuel : Nat) (file : UploadedFile)
    (hf : req.file = some file) (hm : file.mimetype ∈ ALLOWED_AUDIO_TYPES)
    (hsz : file.size ≤ MAX_FILE_SIZE)
    (hc : MAX_UPLOADS_PER_SESSION ≤ countUploads req.sessionId store) :
    (checkUpload true sid store).body =
      .checkUploadBody (decide (MAX_UPLOADS_PER_SESSION ≤ countUploads sid store))
        (some (max 0
          ((MAX_UPLOADS_PER_SESSION : Int) - (countUploads sid store : Int)))) ∧
    postUpload true req w fuel store =
      ⟨[], store,
        some ⟨500, .errorBody "Upload limit reached (5 files per session)" none⟩⟩ := by
  constructor
  · simp [checkUpload, uploadsRemainingFor]
  · rw [postUpload_pass hf hm hsz, handleUpload_quota hf ⟨rfl, hc⟩]
    rfl

/-- Witness for C1 at a concrete session with 5 persisted records. -/
theorem c1_production_quota_witness :
    postUpload true wavReq wAllOk 3 store5 =
      ⟨[], store5,
        some ⟨500, .errorBody "Upload limit reached (5 files per session)" none⟩⟩ :=
  (c1_production_quota "sess-a" store5 wavReq wAllOk 3 wavFile rfl (by decide)
    (by decide) (by decide)).2

/-- Claim C2: an UploadRecord is persisted only after the detection job
reports success end-to-end; every other outcome (missing file, quota
rejection, authentication, storage, transfer or detection submission
failure, a poll failure or a job_status error, and even a still-running
poll) leaves the store exactly as it was. -/
theorem c2_no_partial_persist (p : Bool) (req : UploadRequest) (w : ExtWorld)
    (fuel : Nat) (store : Store) :
    (postUpload p req w fuel store).store = store ∨
    ∃ rec0 b c rem,
      (postUpload p req w fuel store).store = store ++ [rec0] ∧
      (postUpload p req w fuel store).response =
        some ⟨200, .uploadSuccess b c rem⟩ :=
  postUpload_store_cases p req w fuel store

/-- Claim C3: the polling loop runs at the fixed 5000 ms interval with
no attempt cap; with every response before index i non-terminal, a
success at i makes the loop terminate with the first element of the
result list, an error at i makes it terminate with the processing
failure, and a stream that never yields a terminal status never lets
the loop return however much fuel it is given. -/
theorem c3_polling_loop (polls : Nat → Except AxiosError PollResponse) (i : Nat)
    (hpre : ∀ j, j < i → nonTerminalAt polls j) :
    POLLING_INTERVAL = 5000 ∧
    (∀ q, polls i = .ok q → q.job_status = "success" →
      ∀ fuel, pollForResults polls 0 (i + (fuel + 1)) =
        some (.found q.resultList.head?)) ∧
    (∀ q, polls i = .ok q → q.job_status = "error" →
      ∀ fuel, pollForResults polls 0 (i + (fuel + 1)) = some .processingFailed) ∧
    ((∀ j, nonTerminalAt polls j) → ∀ fuel, pollForResults polls 0 fuel = none) := by
  refine ⟨rfl, ?_, ?_, fun hall fuel => pollForResults_none polls hall fuel 0⟩
  · intro q hq hs fuel
    have hskip := pollForResults_skip polls i 0 (fuel + 1)
      (fun j h1 h2 => hpre j (by omega))
    rw [Nat.add_comm i (fuel + 1)] at hskip
    rw [Nat.add_comm i (fuel + 1), hskip, Nat.zero_add]
    exact pollForResults_success polls i fuel hq hs
  · intro q hq hs fuel
    have hs1 : q.job_status ≠ "success" := by rw [hs]; decide
    have hskip := pollForResults_skip polls i 0 (fuel + 1)
      (fun j h1 h2 => hpre j (by omega))
    rw [Nat.add_comm i (fuel + 1)] at hskip
    rw [Nat.add_comm i (fuel + 1), hskip, Nat.zero_add]
    exact pollForResults_statusErr polls i fuel hq hs1 hs

/-- Witness for C3 on a stream that reports processing at attempt 1 and
success at attempt 2. -/
theorem c3_polling_loop_witness :
    pollForResults pollsLater 0 (1 + (0 + 1)) = some (.found (some ⟨true, 87⟩)) :=
  (c3_polling_loop pollsLater 1
    (fun j hj => by
      have hj0 : j = 0 := by omega
      subst hj0
      exact ⟨⟨"processing", []⟩, rfl, by decide, by decide⟩)).2.1
    okSuccessPoll rfl rfl 0

/-- Claim C4: an upload whose MIME type is outside the allowed audio
set is rejected by the multer fileFilter: the outcome carries an empty
external call trace (in particular no authentication call), the store
is unchanged, and the response is the error middleware 500. -/
theorem c4_bad_mime_rejected (p : Bool) (req : UploadRequest) (w : ExtWorld)
    (fuel : Nat) (store : Store) (file : UploadedFile)
    (hf : req.file = some file) (hm : file.mimetype ∉ ALLOWED_AUDIO_TYPES) :
    postUpload p req w fuel store =
      ⟨[], store,
        some ⟨500, .messageBody "Invalid file type. Only audio files are allowed."⟩⟩ :=
  postUpload_badMime hf hm

/-- Witness for C4 at a concrete text/plain upload. -/
theorem c4_bad_mime_rejected_witness :
    postUpload true txtReq wAllOk 1 store4 =
      ⟨[], store4,
        some ⟨500, .messageBody "Invalid file type. Only audio files are allowed."⟩⟩ :=
  c4_bad_mime_rejected true txtReq wAllOk 1 store4 ⟨"notes.txt", "text/plain", 64⟩
    rfl (by decide)

/-- Claim C5: a session with exactly 4 prior records in production
uploading a valid file through a healthy pipeline whose detection job
eventually (after any number of non-terminal polls) reports isAi true
with confidence 87 gets the response ISAI true, confidence 87,
uploadsRemaining 0, and afterwards exactly 5 records exist for that
session. -/
theorem c5_fifth_upload_scenario (store : Store) (req : UploadRequest)
    (file : UploadedFile) (w : ExtWorld) (k fuel : Nat) (tok fid ias job : String)
    (hf : req.file = some file) (hm : file.mimetype ∈ ALLOWED_AUDIO_TYPES)
    (hsz : file.size ≤ MAX_FILE_SIZE)
    (hc : countUploads req.sessionId store = 4)
    (ha : w.auth = .ok tok) (hb : w.storageCreate = .ok fid)
    (htr : w.transfer = .ok ()) (hre : w.resolve = .ok ias) (hde : w.detect = .ok job)
    (hnt : ∀ j, j < k → nonTerminalAt w.polls j)
    (hk : w.polls k = .ok ⟨"success", [⟨true, 87⟩]⟩) :
    (postUpload true req w (k + (fuel + 1)) store).response =
      some ⟨200, .uploadSuccess true 87 (some 0)⟩ ∧
    countUploads req.sessionId (postUpload true req w (k + (fuel + 1)) store).store =
      5 := by
  have hq : ¬(true = true ∧
      MAX_UPLOADS_PER_SESSION ≤ countUploads req.sessionId store) := by
    rw [hc]; decide
  rw [postUpload_pass hf hm hsz, handleUpload_pipeline hf hq ha hb htr hre hde,
    afterDetect_skip true req.sessionId req.ipAddress file fid w.polls store k 0 _
      (fuel + 1) (fun j h1 h2 => hnt j (by omega)),
    Nat.zero_add,
    afterDetect_success true req.sessionId req.ipAddress file fid w.polls store _ k
      fuel hk rfl rfl]
  have hcount : countUploads req.sessionId
      (store ++ [⟨req.sessionId, req.ipAddress, file.originalname, fid, some true,
        toString (87 : Int)⟩]) = 5 := by
    rw [countUploads_append, hc]; simp
  constructor
  · show some (⟨200, .uploadSuccess true 87 (uploadsRemainingFor true _)⟩ :
      HttpResponse) = _
    rw [hcount]
    rfl
  · exact hcount

/-- Witness for C5: the store with 4 records of sess-a, the valid WAV
request and the all-success world with success at the first poll. -/
theorem c5_fifth_upload_scenario_witness :
    (postUpload true wavReq wAllOk (0 + (0 + 1)) store4).response =
      some ⟨200, .uploadSuccess true 87 (some 0)⟩ ∧
    countUploads "sess-a" (postUpload true wavReq wAllOk (0 + (0 + 1)) store4).store =
      5 :=
  c5_fifth_upload_scenario store4 wavReq wavFile wAllOk 0 0 "tok" "fid-1" "ias-url"
    "job-1" rfl (by decide) (by decide) (by decide) rfl rfl rfl rfl rfl
    (fun j hj => absurd hj (Nat.not_lt_zero j)) rfl

/-- Claim C6 counterexample: a text/plain upload fails, but its body is
the error middleware message shape, not the error-plus-details shape of
the catch handler, so not every failure of POST /api/upload has the
body shape of the claim. -/
theorem c6_counterexample :
    (postUpload true txtReq wAllOk 1 []).response =
      some ⟨500, .messageBody "Invalid file type. Only audio files are allowed."⟩ ∧
    Option.map (fun r : HttpResponse => r.body.isErrShape)
      (postUpload true txtReq wAllOk 1 []).response = some false := by
  decide

/-- Claim C6 as amended: every failure of POST /api/upload carries HTTP
status 500 — the caller cannot tell error kinds apart by status code —
and its JSON body is either the single-message shape produced by the
error middleware for multer rejections (file type, file size) or the
error-plus-optional-details shape of the catch handler for in-handler
failures. -/
theorem c6_failures_all_500 (p : Bool) (req : UploadRequest) (w : ExtWorld)
    (fuel : Nat) (store : Store) (r : HttpResponse)
    (h : (postUpload p req w fuel store).response = some r)
    (hfail : r.status ≠ 200) :
    r.status = 500 ∧
      ((∃ m, r.body = .messageBody m) ∨ ∃ e d, r.body = .errorBody e d) := by
  rcases postUpload_response_shape p req w fuel store r h with h2 | h2
  · exact h2
  · exact absurd h2.1 hfail

/-- Witness for the amended C6 at a concrete authentication failure. -/
theorem c6_failures_all_500_witness :
    (⟨500, .errorBody "Request failed with status code 401" (some "unauthorized")⟩ :
      HttpResponse).status = 500 ∧
      ((∃ m, (⟨500, .errorBody "Request failed with status code 401"
          (some "unauthorized")⟩ : HttpResponse).body = .messageBody m) ∨
        ∃ e d, (⟨500, .errorBody "Request failed with status code 401"
          (some "unauthorized")⟩ : HttpResponse).body = .errorBody e d) :=
  c6_failures_all_500 true wavReq wAuthFail 1 []
    ⟨500, .errorBody "Request failed with status code 401" (some "unauthorized")⟩
    (by decide) (by decide)

/-- Claim C7: outside production mode uploadsRemaining is null in the
check-upload response and in every upload success response, and an
upload is never blocked by the quota: the upload response does not
depend on how many records the session already has. -/
theorem c7_nonproduction_unlimited (sid : String) (store store2 : Store)
    (req : UploadRequest) (w : ExtWorld) (fuel : Nat) :
    (checkUpload false sid store).body = .checkUploadBody false none ∧
    Option.all HttpResponse.successRemainingNone
      (postUpload false req w fuel store).response = true ∧
    (postUpload false req w fuel store).response =
      (postUpload false req w fuel store2).response := by
  refine ⟨?_, postUpload_nonprod_remaining_none req w fuel store,
    postUpload_nonprod_response_irrel req w fuel store store2⟩
  simp [checkUpload, uploadsRemainingFor]

/-- Claim C8: every GET /api/check-upload response is a 200 whose body
has the hasUploaded and uploadsRemaining keys, hasUploaded is true
exactly when the session count has reached the ceiling in production
mode, and uploadsRemaining is null exactly outside production mode. -/
theorem c8_check_upload_shape (p : Bool) (sid : String) (store : Store) :
    checkUpload p sid store =
      ⟨200, .checkUploadBody
        (p && decide (MAX_UPLOADS_PER_SESSION ≤ countUploads sid store))
        (uploadsRemainingFor p (countUploads sid store))⟩ ∧
    ((p && decide (MAX_UPLOADS_PER_SESSION ≤ countUploads sid store)) = true ↔
      p = true ∧ MAX_UPLOADS_PER_SESSION ≤ countUploads sid store) ∧
    (uploadsRemainingFor p (countUploads sid store) = none ↔ p = false) := by
  refine ⟨rfl, ?_, ?_⟩
  · simp
  · cases p <;> simp [uploadsRemainingFor]

/-- Witness for C8 in production at a concrete full session. -/
theorem c8_check_upload_shape_witness :
    checkUpload true "sess-a" store5 =
      ⟨200, .checkUploadBody
        (true && decide (MAX_UPLOADS_PER_SESSION ≤ countUploads "sess-a" store5))
        (uploadsRemainingFor true (countUploads "sess-a" store5))⟩ :=
  (c8_check_upload_shape true "sess-a" store5).1

/-- Claim C9: the store is append-only under every application
operation — after any sequence of check and upload operations the
original records are still a prefix — and the count the quota uses is
derived from the store itself: it is the number of persisted records
carrying the session id, which is also exactly what the check-upload
response reports. -/
theorem c9_append_only_derived_count (store : Store) (ops : List Op) (p : Bool)
    (sid : String) :
    (∃ tail, runOps store ops = store ++ tail) ∧
    countUploads sid (runOps store ops) =
      ((runOps store ops).filter (fun r => decide (r.sessionId = sid))).length ∧
    (checkUpload p sid (runOps store ops)).body =
      .checkUploadBody
        (p && decide (MAX_UPLOADS_PER_SESSION ≤
          ((runOps store ops).filter (fun r => decide (r.sessionId = sid))).length))
        (uploadsRemainingFor p
          (((runOps store ops).filter (fun r => decide (r.sessionId = sid))).length)) :=
  ⟨runOps_extends ops store, rfl, rfl⟩

/-- Claim C10: on a success poll response the code reads resultList[0]
without a non-emptiness check; provided every success response carries
at least one result (and no upstream poll error fakes the TypeError
message), the lookup always yields an actual result and the undefined
branch of the handler is unreachable — while a success response with an
empty list does make the lookup yield the undefined value. -/
theorem c10_first_result_access (polls : Nat → Except AxiosError PollResponse)
    (hpre : ∀ i q, polls i = .ok q → q.job_status = "success" → q.resultList ≠ [])
    (hax : ∀ i e, polls i = .error e → e.message ≠ typeErrMsg) :
    (∀ fuel i res, pollForResults polls i fuel = some (.found res) →
      res.isSome = true) ∧
    (∀ (p : Bool) (sid ip : String) (file : UploadedFile) (fid : String)
        (store : Store) (calls : List ExtCall) (i fuel : Nat),
      (afterDetect p sid ip file fid polls store calls i fuel).response ≠
        some ⟨500, .errorBody typeErrMsg none⟩) ∧
    pollForResults pollsEmptySuccess 0 1 = some (.found none) := by
  refine ⟨?_, ?_, by decide⟩
  · intro fuel i res h
    exact pollForResults_found_isSome polls hpre fuel i res h
  · intro p sid ip file fid store calls i fuel
    exact afterDetect_no_typeErr p sid ip file fid polls hpre hax fuel store calls i

/-- Witness for C10 on the all-success stream. -/
theorem c10_first_result_access_witness :
    (some (⟨true, 87⟩ : AnalysisResult)).isSome = true :=
  (c10_first_result_access pollsOk
    (fun i q hq hs => by
      injection hq with h
      rw [← h]
      decide)
    (fun i e he => absurd he (by simp [pollsOk]))).1
    1 0 (some ⟨true, 87⟩) rfl

end AiMusicDetector
